import Mathlib

/-!
Verification of the bastion job-orchestrator core (axlearn.cloud.common.bastion).

The orchestrator module itself is not part of the source tree available here
(only its test suite `axlearn/cloud/common/bastion_test.py` is), so the data
model and the operations below are shallow embeddings modelled from the
specification, with behavior pinned down by the expectations of the test
suite where the tests are more precise than the prose.
-/

namespace Bastion

/-- Modelled from the spec: the five lifecycle statuses of a job
(`JobStatus` in bastion.py, which is missing from the source tree). -/
inductive JobStatus where
  | PENDING
  | ACTIVE
  | CANCELLING
  | CLEANING
  | COMPLETED
deriving DecidableEq, Repr

/-- Modelled from the spec: the scheduler-assigned state metadata carried by a
job state (the opaque metadata dict of `JobState` in bastion.py, missing from
the source tree): an optional assigned tier and the "updated" flag. -/
structure StateMeta where
  tier : Option Nat
  updated : Bool
deriving DecidableEq, Repr

/-- The empty metadata map. -/
def emptyMeta : StateMeta := { tier := none, updated := false }

/-- Modelled from the spec: `JobState` of bastion.py (missing from the source
tree): a status plus opaque metadata. -/
structure JobState where
  status : JobStatus
  metadata : StateMeta
deriving DecidableEq, Repr

/-- The default state for a job with no state record: PENDING, empty metadata. -/
def defaultJobState : JobState := { status := .PENDING, metadata := emptyMeta }

/-- Characters accepted in a job name: printable ASCII excluding space
(codes 33 to 126) and excluding the path separator. -/
def validNameChar (c : Char) : Bool :=
  decide (33 ≤ c.toNat) && decide (c.toNat ≤ 126) && c != '/'

/-- Modelled from the spec: `is_valid_job_name` of bastion.py (missing from the
source tree). The spec says: non-empty, no path separators, no control
characters (including newline), excluding the literal values "." and "..";
the test `test_is_valid_job_name` further pins the accepted character set to
printable ASCII excluding space (it rejects "test job" and non-ASCII quotes
while accepting backslash, comma, colon and underscore). -/
def is_valid_job_name (name : String) : Bool :=
  name != "" && name != "." && name != ".." && name.data.all validNameChar

/-- A printable character in the sense of the spec sentence for claim C1:
not a control character (codes below 32 and the DEL code 127). -/
def specPrintableChar (c : Char) : Bool :=
  decide (32 ≤ c.toNat) && c.toNat != 127

/-- Acceptance predicate transcribed from the words of the claim (for the
refutation of C1): non-empty, printable, no path separator, no control
character, and not "." or "..". -/
def spec_accepts_name (name : String) : Bool :=
  name != "" && name != "." && name != ".." &&
    name.data.all (fun c => specPrintableChar c && c != '/')

/-- Modelled from the spec: the stored representation that
`_download_job_state` of bastion.py (missing from the source tree) reads: a
record may be absent (handled by `Option` at the call), a legacy plain-string
status, or a full state record. -/
inductive StoredState where
  | legacy (content : String)
  | record (st : JobState)
deriving DecidableEq, Repr

/-- Whitespace normalization applied to a legacy stored status value
(the stored text may carry a trailing newline). -/
def stripWhitespace (s : String) : String :=
  ⟨s.data.filter (fun c => !c.isWhitespace)⟩

/-- Modelled from the spec: mapping of a legacy plain-string status value to
the corresponding enum status. -/
def parseLegacyStatus (s : String) : Option JobStatus :=
  if s = "pending" then some .PENDING
  else if s = "active" then some .ACTIVE
  else if s = "cancelling" then some .CANCELLING
  else if s = "cleaning" then some .CLEANING
  else if s = "completed" then some .COMPLETED
  else none

/-- Modelled from the spec: `_download_job_state` of bastion.py (missing from
the source tree). A missing record yields the default PENDING state with
empty metadata; a legacy plain-string status (possibly with surrounding
whitespace, e.g. a trailing newline) maps to the corresponding enum status
with empty metadata; a full record is returned as stored. -/
def _download_job_state (stored : Option StoredState) : Option JobState :=
  match stored with
  | none => some defaultJobState
  | some (.record st) => some st
  | some (.legacy content) =>
      (parseLegacyStatus (stripWhitespace content)).map
        (fun st => { status := st, metadata := emptyMeta })

/-- Modelled from the spec: the per-job state precedence rule of
`download_job_batch` in bastion.py (missing from the source tree). Start from
the orchestrator state (default PENDING if absent); replace the status (never
the metadata) with the user override's status only when the override requests
CANCELLING and the orchestrator status is neither CLEANING nor COMPLETED. -/
def resolve_job_state (orch : Option JobState) (user : Option JobState) : JobState :=
  let base := orch.getD defaultJobState
  match user with
  | none => base
  | some u =>
      if base.status = .CLEANING ∨ base.status = .COMPLETED then base
      else if u.status = .CANCELLING then { status := .CANCELLING, metadata := base.metadata }
      else base

/-- Lookup of a job's record in a listed directory, by name. -/
def lookupJobState (l : List (String × JobState)) (n : String) : Option JobState :=
  (l.find? (fun p => p.1 == n)).map (fun p => p.2)

/-- Modelled from the spec: the state computed by `download_job_batch` of
bastion.py (missing from the source tree) for one job: the precedence rule
applied to the listed orchestrator and user-override records, with a job
whose spec fails validation routed to CANCELLING unless it is already
CLEANING or COMPLETED. -/
def batch_resolved_state (states userStates : List (String × JobState))
    (valid : String → Bool) (n : String) : JobState :=
  let st := resolve_job_state (lookupJobState states n) (lookupJobState userStates n)
  if valid n then st
  else if st.status = .CLEANING ∨ st.status = .COMPLETED then st
  else { status := .CANCELLING, metadata := st.metadata }

/-- Modelled from the spec: the state-resolution part of `download_job_batch`
of bastion.py (missing from the source tree): every listed spec name is
paired with its resolved authoritative state. -/
def download_job_batch (specNames : List String)
    (states userStates : List (String × JobState)) (valid : String → Bool) :
    List (String × JobState) :=
  specNames.map (fun n => (n, batch_resolved_state states userStates valid n))

/-- Modelled from the spec: the JSON-like document values of the versioned
text format written by `serialize_jobspec` and of the runtime-options
document (bastion.py and axlearn.cloud.common.types are missing from the
source tree). -/
inductive JValue where
  | null
  | bool (b : Bool)
  | num (n : Nat)
  | str (s : String)
  | arr (elems : List JValue)
  | obj (fields : List (String × JValue))

/-- Modelled from the spec: `JobMetadata` of axlearn.cloud.common.types
(missing from the source tree). The creation time is in microseconds. -/
structure JobMetadata where
  user_id : String
  project_id : String
  creation_time : Nat
  resources : List (String × Nat)
  priority : Nat
  job_id : Option String
  version : Option Nat
deriving DecidableEq, Repr

/-- Modelled from the spec: `JobSpec` of axlearn.cloud.common.types (missing
from the source tree); `id` is the newer optional field absent from data
written by older clients. -/
structure JobSpec where
  version : Nat
  name : String
  command : String
  cleanup_command : Option String
  env_vars : Option (List (String × String))
  metadata : JobMetadata
  id : Option String
deriving DecidableEq, Repr

/-- Encoding of an optional string field. -/
def optStrVal (o : Option String) : JValue :=
  match o with
  | none => .null
  | some s => .str s

/-- Encoding of an optional numeric field. -/
def optNumVal (o : Option Nat) : JValue :=
  match o with
  | none => .null
  | some n => .num n

/-- Encoding of the optional environment-variable map. -/
def envVarsVal (o : Option (List (String × String))) : JValue :=
  match o with
  | none => .null
  | some l => .obj (l.map (fun p => (p.1, JValue.str p.2)))

/-- Encoding of the resource map. -/
def resourcesVal (l : List (String × Nat)) : JValue :=
  .obj (l.map (fun p => (p.1, JValue.num p.2)))

/-- Modelled from the spec: the metadata part of `serialize_jobspec` of
bastion.py (missing from the source tree). -/
def serialize_metadata (md : JobMetadata) : JValue :=
  .obj [("user_id", .str md.user_id),
        ("project_id", .str md.project_id),
        ("creation_time", .num md.creation_time),
        ("resources", resourcesVal md.resources),
        ("priority", .num md.priority),
        ("job_id", optStrVal md.job_id),
        ("version", optNumVal md.version)]

/-- Modelled from the spec: `serialize_jobspec` of bastion.py (missing from
the source tree): the spec is written as a JSON object with one field per
dataclass field, nested metadata included. -/
def serialize_jobspec (spec : JobSpec) : JValue :=
  .obj [("version", .num spec.version),
        ("name", .str spec.name),
        ("command", .str spec.command),
        ("cleanup_command", optStrVal spec.cleanup_command),
        ("env_vars", envVarsVal spec.env_vars),
        ("metadata", serialize_metadata spec.metadata),
        ("id", optStrVal spec.id)]

/-- Field lookup in a JSON object, first match wins. -/
def jLookup (fields : List (String × JValue)) (k : String) : Option JValue :=
  (fields.find? (fun p => p.1 == k)).map (fun p => p.2)

/-- Decoder for an object value. -/
def getObj (v : JValue) : Option (List (String × JValue)) :=
  match v with
  | .obj fs => some fs
  | _ => none

/-- Decoder for a required string field. -/
def getStr (v : Option JValue) : Option String :=
  match v with
  | some (.str s) => some s
  | _ => none

/-- Decoder for a required numeric field. -/
def getNum (v : Option JValue) : Option Nat :=
  match v with
  | some (.num n) => some n
  | _ => none

/-- Decoder for a numeric field with a default for a missing key. -/
def getNumD (v : Option JValue) (d : Nat) : Option Nat :=
  match v with
  | none => some d
  | some (.num n) => some n
  | _ => none

/-- Decoder for an optional string field: a missing key or an explicit null
decodes to `none` (the default), never to a failure. -/
def getOptStr (v : Option JValue) : Option (Option String) :=
  match v with
  | none => some none
  | some .null => some none
  | some (.str s) => some (some s)
  | _ => none

/-- Decoder for an optional numeric field, defaulting a missing key. -/
def getOptNum (v : Option JValue) : Option (Option Nat) :=
  match v with
  | none => some none
  | some .null => some none
  | some (.num n) => some (some n)
  | _ => none

/-- Decoder for the fields of a string-to-string map. -/
def decodeStrFields (fs : List (String × JValue)) : Option (List (String × String)) :=
  match fs with
  | [] => some []
  | (k, .str v) :: rest => (decodeStrFields rest).map (fun l => (k, v) :: l)
  | _ => none

/-- Decoder for the fields of a string-to-integer map. -/
def decodeNumFields (fs : List (String × JValue)) : Option (List (String × Nat)) :=
  match fs with
  | [] => some []
  | (k, .num v) :: rest => (decodeNumFields rest).map (fun l => (k, v) :: l)
  | _ => none

/-- Decoder for the optional environment-variable map. -/
def getEnvVars (v : Option JValue) : Option (Option (List (String × String))) :=
  match v with
  | none => some none
  | some .null => some none
  | some (.obj fs) => (decodeStrFields fs).map some
  | _ => none

/-- Decoder for the resource map. -/
def getResources (v : Option JValue) : Option (List (String × Nat)) :=
  match v with
  | some (.obj fs) => decodeNumFields fs
  | _ => none

/-- Modelled from the spec: the metadata part of `deserialize_jobspec` of
bastion.py (missing from the source tree): field lookups by name, so unknown
fields are ignored and newer optional fields missing from the document (the
job_id, the version counter, a priority) are defaulted rather than failing. -/
def deserialize_metadata (v : JValue) : Option JobMetadata := do
  let ms ← getObj v
  let user_id ← getStr (jLookup ms "user_id")
  let project_id ← getStr (jLookup ms "project_id")
  let creation_time ← getNum (jLookup ms "creation_time")
  let resources ← getResources (jLookup ms "resources")
  let priority ← getNumD (jLookup ms "priority") 5
  let job_id ← getOptStr (jLookup ms "job_id")
  let mversion ← getOptNum (jLookup ms "version")
  pure { user_id := user_id, project_id := project_id,
         creation_time := creation_time, resources := resources,
         priority := priority, job_id := job_id, version := mversion }

/-- Modelled from the spec: `deserialize_jobspec` of bastion.py (missing from
the source tree): field lookups by name, so unknown fields are ignored and
the newer optional id field missing from data written by an older client is
defaulted rather than failing. -/
def deserialize_jobspec (j : JValue) : Option JobSpec := do
  let fs ← getObj j
  let version ← getNum (jLookup fs "version")
  let name ← getStr (jLookup fs "name")
  let command ← getStr (jLookup fs "command")
  let cleanup_command ← getOptStr (jLookup fs "cleanup_command")
  let env_vars ← getEnvVars (jLookup fs "env_vars")
  let mv ← jLookup fs "metadata"
  let metadata ← deserialize_metadata mv
  let id ← getOptStr (jLookup fs "id")
  pure { version := version, name := name, command := command,
         cleanup_command := cleanup_command, env_vars := env_vars,
         metadata := metadata, id := id }

/-- Removal of one top-level field from a serialized document, producing the
shape of data written by an older client that does not know the field. -/
def eraseTopField (j : JValue) (k : String) : JValue :=
  match j with
  | .obj fs => .obj (fs.filter (fun p => !(p.1 == k)))
  | v => v

/-- Looking up any key in an empty object yields nothing. -/
theorem jLookup_nil (k : String) : jLookup [] k = none := rfl

/-- Decoding an absent optional string field yields the default. -/
theorem getOptStr_none : getOptStr none = some none := rfl

/-- Looking up the key of the head field returns its value. -/
theorem jLookup_cons_self (k : String) (v : JValue) (rest : List (String × JValue)) :
    jLookup ((k, v) :: rest) k = some v := by
  simp [jLookup, List.find?]

/-- Looking up a key different from the head field's key skips the head. -/
theorem jLookup_cons_of_ne (k' k : String) (v : JValue) (rest : List (String × JValue))
    (h : (k' == k) = false) : jLookup ((k', v) :: rest) k = jLookup rest k := by
  simp [jLookup, List.find?, h]

/-- Decoding a string map encoded field by field returns the original list. -/
theorem decodeStrFields_encode (l : List (String × String)) :
    decodeStrFields (l.map (fun p => (p.1, JValue.str p.2))) = some l := by
  induction l with
  | nil => rfl
  | cons hd tl ih => simp [decodeStrFields, ih]

/-- Decoding an integer map encoded field by field returns the original list. -/
theorem decodeNumFields_encode (l : List (String × Nat)) :
    decodeNumFields (l.map (fun p => (p.1, JValue.num p.2))) = some l := by
  induction l with
  | nil => rfl
  | cons hd tl ih => simp [decodeNumFields, ih]

/-- Decoding an encoded optional string field returns the original option. -/
theorem getOptStr_optStrVal (o : Option String) : getOptStr (some (optStrVal o)) = some o := by
  cases o <;> rfl

/-- Decoding an encoded optional numeric field returns the original option. -/
theorem getOptNum_optNumVal (o : Option Nat) : getOptNum (some (optNumVal o)) = some o := by
  cases o <;> rfl

/-- Decoding an encoded environment-variable map returns the original option. -/
theorem getEnvVars_envVarsVal (o : Option (List (String × String))) :
    getEnvVars (some (envVarsVal o)) = some o := by
  cases o <;> simp [getEnvVars, envVarsVal, decodeStrFields_encode]

/-- Decoding an encoded resource map returns the original list. -/
theorem getResources_resourcesVal (l : List (String × Nat)) :
    getResources (some (resourcesVal l)) = some l := by
  simp [getResources, resourcesVal, decodeNumFields_encode]

/-- C1 counterexample: the name "test job" is non-empty, printable, contains
no path separator and no control character, and is neither "." nor "..", so
the claim as stated says it must be accepted; yet `is_valid_job_name` rejects
it (spaces are not valid job-name characters, per `test_is_valid_job_name`). -/
theorem claim_C1_counterexample :
    spec_accepts_name "test job" = true ∧ is_valid_job_name "test job" = false := by
  decide

/-- C1 (amended): `is_valid_job_name` accepts exactly the names that are
non-empty, differ from "." and "..", and consist only of printable ASCII
characters excluding space (codes 33 to 126) that are not the path
separator; in particular every name that is empty, contains a path
separator, a control character (such as a newline), a space, or a non-ASCII
character, or equals "." or "..", is rejected. -/
theorem claim_C1 (name : String) :
    is_valid_job_name name = true ↔
      (name ≠ "" ∧ name ≠ "." ∧ name ≠ ".." ∧
        ∀ c ∈ name.data, 33 ≤ c.toNat ∧ c.toNat ≤ 126 ∧ c ≠ '/') := by
  simp only [is_valid_job_name, validNameChar, Bool.and_eq_true, bne_iff_ne,
    List.all_eq_true, decide_eq_true_eq, ne_eq]
  constructor
  · rintro ⟨⟨⟨h1, h2⟩, h3⟩, h4⟩
    refine ⟨h1, h2, h3, fun c hc => ?_⟩
    obtain ⟨⟨ha, hb⟩, hcne⟩ := h4 c hc
    exact ⟨ha, hb, hcne⟩
  · rintro ⟨h1, h2, h3, h4⟩
    refine ⟨⟨⟨h1, h2⟩, h3⟩, fun c hc => ?_⟩
    obtain ⟨ha, hb, hcne⟩ := h4 c hc
    exact ⟨⟨ha, hb⟩, hcne⟩

/-- C9: `_download_job_state` returns the default PENDING state with empty
metadata when no record exists, and maps a legacy plain-string status (for
example the text "active" with a trailing newline) to the corresponding enum
status with empty metadata instead of failing. -/
theorem claim_C9 :
    _download_job_state none = some { status := .PENDING, metadata := emptyMeta } ∧
    _download_job_state (some (.legacy "active\n")) =
      some { status := .ACTIVE, metadata := emptyMeta } ∧
    _download_job_state (some (.legacy "pending")) =
      some { status := .PENDING, metadata := emptyMeta } ∧
    _download_job_state (some (.legacy "cancelling")) =
      some { status := .CANCELLING, metadata := emptyMeta } ∧
    _download_job_state (some (.legacy "cleaning")) =
      some { status := .CLEANING, metadata := emptyMeta } ∧
    _download_job_state (some (.legacy "completed")) =
      some { status := .COMPLETED, metadata := emptyMeta } := by
  refine ⟨rfl, ?_, ?_, ?_, ?_, ?_⟩ <;> rfl

/-- C2: every job returned by `download_job_batch` that passes validation
carries the state computed by the precedence rule: the metadata always comes
from the orchestrator state (default PENDING with empty metadata if absent),
and the status is the override's status exactly when an override exists with
status CANCELLING and the orchestrator status is neither CLEANING nor
COMPLETED; an override on a CLEANING or COMPLETED job, and an override whose
status is not CANCELLING, are ignored. -/
theorem claim_C2 (specNames : List String)
    (states userStates : List (String × JobState)) (valid : String → Bool)
    (n : String) (st : JobState)
    (hmem : (n, st) ∈ download_job_batch specNames states userStates valid)
    (hvalid : valid n = true) :
    st.metadata = ((lookupJobState states n).getD defaultJobState).metadata ∧
    st.status =
      (match lookupJobState userStates n with
       | none => ((lookupJobState states n).getD defaultJobState).status
       | some u =>
          if ((lookupJobState states n).getD defaultJobState).status = .CLEANING ∨
             ((lookupJobState states n).getD defaultJobState).status = .COMPLETED then
            ((lookupJobState states n).getD defaultJobState).status
          else if u.status = .CANCELLING then .CANCELLING
          else ((lookupJobState states n).getD defaultJobState).status) := by
  rw [download_job_batch, List.mem_map] at hmem
  obtain ⟨m, _, heq⟩ := hmem
  rw [Prod.mk.injEq] at heq
  obtain ⟨hn, hst⟩ := heq
  subst hn
  subst hst
  rw [batch_resolved_state]
  simp only [hvalid, if_true]
  cases hu : lookupJobState userStates m with
  | none => simp [resolve_job_state, hu]
  | some u =>
      by_cases hcln : ((lookupJobState states m).getD defaultJobState).status = .CLEANING ∨
          ((lookupJobState states m).getD defaultJobState).status = .COMPLETED
      · simp [resolve_job_state, hu, hcln]
      · by_cases hc : u.status = .CANCELLING
        · simp [resolve_job_state, hu, hcln, hc]
        · simp [resolve_job_state, hu, hcln, hc]

/-- C2 witness: a concrete batch in which job "j1" has orchestrator state
ACTIVE with tier 0 and a CANCELLING user override; the resolved state is
CANCELLING with the orchestrator metadata. -/
theorem claim_C2_witness :
    ({ status := .CANCELLING, metadata := { tier := some 0, updated := false } }
        : JobState).metadata =
      ((lookupJobState [("j1", { status := .ACTIVE, metadata := { tier := some 0, updated := false } })]
          "j1").getD defaultJobState).metadata ∧
    ({ status := .CANCELLING, metadata := { tier := some 0, updated := false } }
        : JobState).status =
      (match lookupJobState [("j1", { status := .CANCELLING, metadata := { tier := some 5, updated := true } })] "j1" with
       | none =>
          ((lookupJobState [("j1", { status := .ACTIVE, metadata := { tier := some 0, updated := false } })]
              "j1").getD defaultJobState).status
       | some u =>
          if ((lookupJobState [("j1", { status := .ACTIVE, metadata := { tier := some 0, updated := false } })]
                "j1").getD defaultJobState).status = .CLEANING ∨
             ((lookupJobState [("j1", { status := .ACTIVE, metadata := { tier := some 0, updated := false } })]
                "j1").getD defaultJobState).status = .COMPLETED then
            ((lookupJobState [("j1", { status := .ACTIVE, metadata := { tier := some 0, updated := false } })]
                "j1").getD defaultJobState).status
          else if u.status = .CANCELLING then .CANCELLING
          else ((lookupJobState [("j1", { status := .ACTIVE, metadata := { tier := some 0, updated := false } })]
                  "j1").getD defaultJobState).status) :=
  claim_C2 ["j1"]
    [("j1", { status := .ACTIVE, metadata := { tier := some 0, updated := false } })]
    [("j1", { status := .CANCELLING, metadata := { tier := some 5, updated := true } })]
    (fun _ => true) "j1"
    { status := .CANCELLING, metadata := { tier := some 0, updated := false } }
    (by decide) rfl

/-- Deserializing serialized metadata returns the metadata unchanged. -/
theorem deserialize_metadata_serialize (md : JobMetadata) :
    deserialize_metadata (serialize_metadata md) = some md := by
  obtain ⟨u, pj, ct, rs, pr, ji, mv⟩ := md
  simp only [serialize_metadata, deserialize_metadata, getObj,
    jLookup_cons_self, jLookup_cons_of_ne, String.reduceBEq,
    getStr, getNum, getNumD, getOptStr_optStrVal, getOptNum_optNumVal,
    getResources_resourcesVal, Option.bind_eq_bind, Option.some_bind, Option.pure_def]

set_option maxHeartbeats 1000000 in
/-- C4: deserializing a serialized jobspec returns the spec unchanged on
every field, including the optional job_id and when env_vars is absent; and
deserializing a document from which the newer top-level id field was removed
(as written by an older client) succeeds, with the id defaulted instead of
failing. -/
theorem claim_C4 :
    (∀ spec : JobSpec, deserialize_jobspec (serialize_jobspec spec) = some spec) ∧
    (∀ spec : JobSpec,
        deserialize_jobspec (eraseTopField (serialize_jobspec spec) "id") =
          some { spec with id := none }) := by
  constructor <;>
  · intro spec
    obtain ⟨v, n, c, cc, ev, md, i⟩ := spec
    simp only [serialize_jobspec, eraseTopField, List.filter_cons, List.filter_nil,
      String.reduceBEq, Bool.not_false, Bool.not_true, Bool.false_eq_true, if_false, if_true,
      deserialize_jobspec, getObj, jLookup_cons_self, jLookup_cons_of_ne,
      getStr, getNum, getOptStr_optStrVal, getEnvVars_envVarsVal,
      deserialize_metadata_serialize, jLookup_nil, getOptStr_none,
      Option.bind_eq_bind, Option.some_bind, Option.pure_def]

/-- Modelled from the spec: a supervised child process handle
(`_PipedProcess` of bastion.py, missing from the source tree), carrying the
command it runs and the scheduling tier handed to it through the
environment. -/
structure Proc where
  cmd : String
  envTier : Option Nat
deriving DecidableEq, Repr

/-- Modelled from the spec: the in-memory `Job` of bastion.py (missing from
the source tree): spec, state, and the optional command and cleanup process
handles. -/
structure Job where
  spec : JobSpec
  state : JobState
  command_proc : Option Proc
  cleanup_proc : Option Proc
deriving DecidableEq, Repr

/-- The non-blocking observations available to one engine tick: the poll
result of the command process (`none` = still running, `some code` =
exited), the poll result of the cleanup process, and whether spawning the
command process succeeds. -/
structure TickEnv where
  pollCmd : Option Int
  pollCleanup : Option Int
  startOk : Bool
deriving DecidableEq, Repr

/-- The externally visible side effects of one per-job engine step: whether
the process group was force-killed (a signal to the whole group), whether a
graceful terminate was invoked, whether the command log was uploaded, and
whether a command or cleanup process was spawned. -/
structure Effects where
  killed : Bool
  terminated : Bool
  logUploaded : Bool
  startedCommand : Bool
  startedCleanup : Bool
deriving DecidableEq, Repr

/-- The step with no side effects. -/
def noEffects : Effects :=
  { killed := false, terminated := false, logUploaded := false,
    startedCommand := false, startedCleanup := false }

/-- Modelled from the spec: `_update_single_job` of bastion.py (missing from
the source tree), the per-job state machine step of §4.4:
a PENDING job with a live command process is force-killed (pre-emption) with
its log uploaded; an ACTIVE job whose metadata carries the "updated" flag is
force-killed and requeued as PENDING keeping the assigned tier and clearing
the flag (per `test_update_jobs`); an ACTIVE job without a command process
starts one (falling back to CLEANING when the spawn fails) and an ACTIVE
job's command poll moves it to CLEANING on exit; a CANCELLING job is
force-killed (never gracefully terminated) and moved to CLEANING in the same
tick; a CLEANING job starts or polls its cleanup process and completes when
the cleanup exits or no cleanup command is configured; COMPLETED is
terminal. -/
def _update_single_job (env : TickEnv) (job : Job) : Job × Effects :=
  match job.state.status with
  | .PENDING =>
    match job.command_proc with
    | some _ =>
        ({ job with command_proc := none },
         { noEffects with killed := true, logUploaded := true })
    | none => (job, noEffects)
  | .ACTIVE =>
    if job.state.metadata.updated then
      ({ job with
         state := { status := .PENDING,
                    metadata := { tier := job.state.metadata.tier, updated := false } },
         command_proc := none },
       { noEffects with killed := job.command_proc.isSome,
                        logUploaded := job.command_proc.isSome })
    else
      match job.command_proc with
      | none =>
        if env.startOk then
          match env.pollCmd with
          | none =>
              ({ job with
                 command_proc := some { cmd := job.spec.command, envTier := job.state.metadata.tier } },
               { noEffects with startedCommand := true })
          | some _ =>
              ({ job with
                 command_proc := none,
                 state := { status := .CLEANING, metadata := job.state.metadata } },
               { noEffects with startedCommand := true, logUploaded := true })
        else
          ({ job with state := { status := .CLEANING, metadata := job.state.metadata } },
           noEffects)
      | some _ =>
        match env.pollCmd with
        | none => (job, noEffects)
        | some _ =>
            ({ job with
               command_proc := none,
               state := { status := .CLEANING, metadata := job.state.metadata } },
             { noEffects with logUploaded := true })
  | .CANCELLING =>
    match job.command_proc with
    | some _ =>
        ({ job with
           command_proc := none,
           state := { status := .CLEANING, metadata := job.state.metadata } },
         { noEffects with killed := true, logUploaded := true })
    | none =>
        ({ job with state := { status := .CLEANING, metadata := job.state.metadata } },
         noEffects)
  | .CLEANING =>
    match job.cleanup_proc with
    | some _ =>
      match env.pollCleanup with
      | none => (job, noEffects)
      | some _ =>
          ({ job with
             cleanup_proc := none,
             state := { status := .COMPLETED, metadata := job.state.metadata } },
           noEffects)
    | none =>
      match job.spec.cleanup_command with
      | some cc =>
          ({ job with cleanup_proc := some { cmd := cc, envTier := job.state.metadata.tier } },
           { noEffects with startedCleanup := true })
      | none =>
          ({ job with state := { status := .COMPLETED, metadata := job.state.metadata } },
           noEffects)
  | .COMPLETED => (job, noEffects)

/-- Modelled from the spec: the scheduler-verdict application of
`_update_jobs` in bastion.py (missing from the source tree). Only PENDING
and ACTIVE jobs are schedulable: an admitted job becomes ACTIVE with the
scheduler-assigned tier written into its metadata (the "updated" flag is
left untouched, so a tier change alone does not restart the job); a job
whose admission is withdrawn is reset to PENDING with empty metadata.
CANCELLING, CLEANING and COMPLETED jobs are not touched by the scheduler. -/
def apply_scheduler_verdict (admitted : Bool) (tier : Option Nat) (job : Job) : Job :=
  match job.state.status with
  | .PENDING | .ACTIVE =>
    if admitted then
      { job with
        state := { status := .ACTIVE,
                   metadata := { tier := tier, updated := job.state.metadata.updated } } }
    else
      { job with state := { status := .PENDING, metadata := emptyMeta } }
  | _ => job

/-- Modelled from the spec: one full engine tick for one job — the scheduler
verdict is applied and then the state machine step runs. -/
def update_job_tick (admitted : Bool) (tier : Option Nat) (env : TickEnv) (job : Job) :
    Job × Effects :=
  _update_single_job env (apply_scheduler_verdict admitted tier job)

/-- A sample jobspec mirroring the "updating" job of `test_update_jobs`. -/
def updatingSpec : JobSpec :=
  { version := 1, name := "updating", command := "command",
    cleanup_command := some "cleanup", env_vars := none,
    metadata := { user_id := "e", project_id := "project1", creation_time := 0,
                  resources := [("v4", 1)], priority := 5, job_id := none,
                  version := some 2 },
    id := none }

/-- The "updating" job of `test_update_jobs`: ACTIVE on tier 0 with the
"updated" flag set and a running command process. -/
def updatingJob : Job :=
  { spec := updatingSpec,
    state := { status := .ACTIVE, metadata := { tier := some 0, updated := true } },
    command_proc := some { cmd := "command", envTier := some 0 },
    cleanup_proc := none }

/-- C3 counterexample: for the "updating" job (ACTIVE on tier 0 with the
"updated" flag set, admitted by the scheduler), the tick requeues it as
PENDING with metadata tier 0 and the flag cleared — `test_update_jobs`
expects exactly this — whereas the claim's "metadata reset except that the
updated flag is retained" predicts metadata with no tier and the flag still
set. -/
theorem claim_C3_counterexample :
    (update_job_tick true (some 0) ⟨none, none, true⟩ updatingJob).1.state.metadata =
      { tier := some 0, updated := false } ∧
    (update_job_tick true (some 0) ⟨none, none, true⟩ updatingJob).1.state.metadata ≠
      { tier := none, updated := true } := by
  decide

/-- C3 (amended): an ACTIVE job with a running command process that loses
scheduler admission is force-killed (a signal to the process group, never a
graceful terminate), its log is uploaded, and it is requeued as PENDING with
its metadata reset; an ACTIVE job whose metadata carries the "updated" flag
is likewise force-killed (never gracefully terminated), its log uploaded,
and requeued as PENDING — but its metadata keeps the assigned tier and
clears the "updated" flag rather than retaining it. -/
theorem claim_C3 (job : Job) (tier : Option Nat) (env : TickEnv)
    (hactive : job.state.status = .ACTIVE) (hcmd : job.command_proc.isSome = true) :
    ((update_job_tick false tier env job).1.state =
        { status := .PENDING, metadata := emptyMeta } ∧
     (update_job_tick false tier env job).1.command_proc = none ∧
     (update_job_tick false tier env job).2.killed = true ∧
     (update_job_tick false tier env job).2.logUploaded = true ∧
     (update_job_tick false tier env job).2.terminated = false) ∧
    (job.state.metadata.updated = true →
     (update_job_tick true tier env job).1.state =
        { status := .PENDING, metadata := { tier := tier, updated := false } } ∧
     (update_job_tick true tier env job).1.command_proc = none ∧
     (update_job_tick true tier env job).2.killed = true ∧
     (update_job_tick true tier env job).2.logUploaded = true ∧
     (update_job_tick true tier env job).2.terminated = false) := by
  obtain ⟨p, hp⟩ := Option.isSome_iff_exists.mp hcmd
  constructor
  · simp [update_job_tick, apply_scheduler_verdict, _update_single_job, hactive, hp,
      emptyMeta, noEffects]
  · intro hupd
    simp [update_job_tick, apply_scheduler_verdict, _update_single_job, hactive, hp, hupd,
      noEffects]

/-- C3 witness: the amended claim evaluated on the concrete "updating" job. -/
theorem claim_C3_witness :
    ((update_job_tick false (some 0) ⟨none, none, true⟩ updatingJob).1.state =
        { status := .PENDING, metadata := emptyMeta } ∧
     (update_job_tick false (some 0) ⟨none, none, true⟩ updatingJob).1.command_proc = none ∧
     (update_job_tick false (some 0) ⟨none, none, true⟩ updatingJob).2.killed = true ∧
     (update_job_tick false (some 0) ⟨none, none, true⟩ updatingJob).2.logUploaded = true ∧
     (update_job_tick false (some 0) ⟨none, none, true⟩ updatingJob).2.terminated = false) ∧
    (updatingJob.state.metadata.updated = true →
     (update_job_tick true (some 0) ⟨none, none, true⟩ updatingJob).1.state =
        { status := .PENDING, metadata := { tier := some 0, updated := false } } ∧
     (update_job_tick true (some 0) ⟨none, none, true⟩ updatingJob).1.command_proc = none ∧
     (update_job_tick true (some 0) ⟨none, none, true⟩ updatingJob).2.killed = true ∧
     (update_job_tick true (some 0) ⟨none, none, true⟩ updatingJob).2.logUploaded = true ∧
     (update_job_tick true (some 0) ⟨none, none, true⟩ updatingJob).2.terminated = false) :=
  claim_C3 updatingJob (some 0) ⟨none, none, true⟩ rfl rfl

/-- C8: when a scheduler-admitted ACTIVE job has no running command process
and spawning the command fails, the job moves to CLEANING within the same
tick with no command process handle, and no later tick from CLEANING ever
spawns the command again. -/
theorem claim_C8 (job : Job) (tier tier2 : Option Nat) (env env2 : TickEnv) (admitted2 : Bool)
    (hactive : job.state.status = .ACTIVE) (hupd : job.state.metadata.updated = false)
    (hcmd : job.command_proc = none) (hstart : env.startOk = false) :
    (update_job_tick true tier env job).1.state.status = .CLEANING ∧
    (update_job_tick true tier env job).1.command_proc = none ∧
    (update_job_tick true tier env job).2.startedCommand = false ∧
    (update_job_tick admitted2 tier2 env2 (update_job_tick true tier env job).1).2.startedCommand
      = false := by
  rcases hclp : job.cleanup_proc with _ | q <;>
    rcases hpc2 : env2.pollCleanup with _ | c2 <;>
    rcases hcc : job.spec.cleanup_command with _ | cc <;>
    simp [update_job_tick, apply_scheduler_verdict, _update_single_job, hactive, hupd, hcmd,
      hstart, hclp, hpc2, hcc, noEffects]

/-- The job of `test_active_command_malformed`: ACTIVE on tier 1, admitted,
but with no process handles yet. -/
def malformedJob : Job :=
  { spec := updatingSpec,
    state := { status := .ACTIVE, metadata := { tier := some 1, updated := false } },
    command_proc := none,
    cleanup_proc := none }

/-- C8 witness: the claim evaluated on the concrete malformed-command job. -/
theorem claim_C8_witness :
    (update_job_tick true (some 1) ⟨none, none, false⟩ malformedJob).1.state.status
      = .CLEANING ∧
    (update_job_tick true (some 1) ⟨none, none, false⟩ malformedJob).1.command_proc = none ∧
    (update_job_tick true (some 1) ⟨none, none, false⟩ malformedJob).2.startedCommand = false ∧
    (update_job_tick true (some 1) ⟨none, none, true⟩
        (update_job_tick true (some 1) ⟨none, none, false⟩ malformedJob).1).2.startedCommand
      = false :=
  claim_C8 malformedJob (some 1) (some 1) ⟨none, none, false⟩ ⟨none, none, true⟩ true
    rfl rfl rfl rfl

/-- The engine's per-job bookkeeping invariant on process handles while a
tick may still act on the job: PENDING, ACTIVE and CANCELLING jobs have no
cleanup process; CLEANING jobs have no command process; COMPLETED jobs have
neither. A freshly synced job (PENDING with no handles) satisfies it. -/
def tickInv (j : Job) : Prop :=
  match j.state.status with
  | .PENDING => j.cleanup_proc = none
  | .ACTIVE => j.cleanup_proc = none
  | .CANCELLING => j.cleanup_proc = none
  | .CLEANING => j.command_proc = none
  | .COMPLETED => j.command_proc = none ∧ j.cleanup_proc = none

/-- The handle invariant of the claim: an ACTIVE job holds a command process
handle and no cleanup handle; a COMPLETED job holds neither handle. -/
def handleInv (j : Job) : Prop :=
  (j.state.status = .ACTIVE → j.command_proc.isSome = true ∧ j.cleanup_proc = none) ∧
  (j.state.status = .COMPLETED → j.command_proc = none ∧ j.cleanup_proc = none)

/-- The scheduler-verdict step preserves the bookkeeping invariant. -/
theorem apply_scheduler_verdict_tickInv (admitted : Bool) (tier : Option Nat) (job : Job)
    (h : tickInv job) : tickInv (apply_scheduler_verdict admitted tier job) := by
  obtain ⟨spec, ⟨st, m⟩, cp, clp⟩ := job
  cases st <;> cases admitted <;>
    simp_all [tickInv, apply_scheduler_verdict]

/-- The state-machine step preserves the bookkeeping invariant and
establishes the handle invariant. -/
theorem update_single_job_inv (env : TickEnv) (job : Job) (h : tickInv job) :
    tickInv (_update_single_job env job).1 ∧ handleInv (_update_single_job env job).1 := by
  obtain ⟨spec, ⟨st, ⟨tr, upd⟩⟩, cp, clp⟩ := job
  obtain ⟨pc, pcl, so⟩ := env
  cases st <;> cases upd <;> rcases cp with _ | p <;> rcases clp with _ | q <;>
    rcases pc with _ | c1 <;> rcases pcl with _ | c2 <;> cases so <;>
    rcases hcc : spec.cleanup_command with _ | cc <;>
    simp_all [tickInv, handleInv, _update_single_job]

/-- C10: a full per-tick job update preserves the engine's process-handle
bookkeeping invariant, and afterwards every job satisfies the handle
invariant: an ACTIVE job has a command process handle and no cleanup handle,
and a COMPLETED job has neither handle. -/
theorem claim_C10 (job : Job) (admitted : Bool) (tier : Option Nat) (env : TickEnv)
    (hinv : tickInv job) :
    tickInv (update_job_tick admitted tier env job).1 ∧
    handleInv (update_job_tick admitted tier env job).1 :=
  update_single_job_inv env (apply_scheduler_verdict admitted tier job)
    (apply_scheduler_verdict_tickInv admitted tier job hinv)

/-- C10 witness: the invariant evaluated across one tick of the concrete
"updating" job. -/
theorem claim_C10_witness :
    tickInv (update_job_tick true (some 0) ⟨none, none, true⟩ updatingJob).1 ∧
    handleInv (update_job_tick true (some 0) ⟨none, none, true⟩ updatingJob).1 :=
  claim_C10 updatingJob true (some 0) ⟨none, none, true⟩ (by simp [tickInv, updatingJob])

/-- Modelled from the spec: the eligibility test of `_gc_jobs` in bastion.py
(missing from the source tree): the cleaner is handed exactly the jobs that
are COMPLETED or PENDING with no tier metadata (never scheduled). -/
def gcEligible (j : Job) : Bool :=
  match j.state.status with
  | .COMPLETED => true
  | .PENDING => j.state.metadata.tier.isNone
  | _ => false

/-- The outcome of one GC pass: the job names handed to the cleaner, the
remote state records and remote jobspecs deleted, and the jobs kept in the
in-memory active set. -/
structure GCResult where
  swept : List String
  deletedStates : List String
  deletedSpecs : List String
  remaining : List (String × Job)
deriving Repr

/-- Modelled from the spec: `_gc_jobs` of bastion.py (missing from the
source tree). Eligible jobs (COMPLETED, or PENDING with no tier) are handed
to the cleaner; of the jobs the cleaner reports fully reclaimed, the
COMPLETED ones have their remote state record and remote jobspec deleted
while reclaimed PENDING jobs have nothing to delete; every reclaimed job is
dropped from the active set, and all other jobs are left untouched. -/
def _gc_jobs (jobs : List (String × Job)) (reclaimed : String → Bool) : GCResult :=
  match jobs with
  | [] => { swept := [], deletedStates := [], deletedSpecs := [], remaining := [] }
  | (n, j) :: rest =>
    let r := _gc_jobs rest reclaimed
    if gcEligible j then
      if reclaimed n then
        match j.state.status with
        | .COMPLETED =>
            { swept := n :: r.swept, deletedStates := n :: r.deletedStates,
              deletedSpecs := n :: r.deletedSpecs, remaining := r.remaining }
        | _ =>
            { swept := n :: r.swept, deletedStates := r.deletedStates,
              deletedSpecs := r.deletedSpecs, remaining := r.remaining }
      else
        { swept := n :: r.swept, deletedStates := r.deletedStates,
          deletedSpecs := r.deletedSpecs, remaining := (n, j) :: r.remaining }
    else
      { swept := r.swept, deletedStates := r.deletedStates,
        deletedSpecs := r.deletedSpecs, remaining := (n, j) :: r.remaining }

/-- The outcome of the best-effort shutdown performed when the control loop
hits an unrecoverable exception: the jobs whose processes were attempted to
be killed, the jobs still tracked afterwards, and the collected secondary
errors. -/
structure CleanupResult where
  attempted : List String
  remaining : List (String × Job)
  killErrors : List String
deriving Repr

/-- Modelled from the spec: the exception path of `Bastion.execute` in
bastion.py (missing from the source tree). Before the exception propagates,
the engine attempts to kill the processes of every tracked job in order; a
job whose kill raises stays in the active set and its error is collected
(not suppressed), and a job whose kill succeeds is removed from the active
set. -/
def execute_exception_cleanup (jobs : List (String × Job)) (killFails : String → Bool) :
    CleanupResult :=
  match jobs with
  | [] => { attempted := [], remaining := [], killErrors := [] }
  | (n, j) :: rest =>
    let r := execute_exception_cleanup rest killFails
    if killFails n then
      { attempted := n :: r.attempted, remaining := (n, j) :: r.remaining,
        killErrors := n :: r.killErrors }
    else
      { attempted := n :: r.attempted, remaining := r.remaining, killErrors := r.killErrors }

/-- Modelled from the spec: the demand extraction of `_update_jobs` in
bastion.py (missing from the source tree): the scheduler is invoked on
exactly the active jobs whose status is PENDING or ACTIVE. -/
def schedulable_jobs (jobs : List (String × Job)) : List (String × Job) :=
  jobs.filter (fun p =>
    decide (p.2.state.status = .PENDING ∨ p.2.state.status = .ACTIVE))

/-- Modelled from the spec: the runtime-options handling of `_update_jobs`
in bastion.py (missing from the source tree). The "scheduler" section of the
runtime-options document supplies dry_run and verbosity; an absent section,
a section of the wrong shape, or a value of the wrong type never raises and
falls back to dry_run = false and verbosity = 0. -/
def _load_scheduler_options (opts : JValue) : Bool × Nat :=
  let sched : Option JValue :=
    match opts with
    | .obj fs => jLookup fs "scheduler"
    | _ => none
  match sched with
  | some (.obj sf) =>
      let d : Bool :=
        match jLookup sf "dry_run" with
        | some (.bool b) => b
        | _ => false
      let v : Nat :=
        match jLookup sf "verbosity" with
        | some (.num k) => k
        | _ => 0
      (d, v)
  | _ => (false, 0)

set_option maxHeartbeats 2000000 in
/-- C5: the GC pass hands the cleaner exactly the jobs that are COMPLETED or
PENDING with no tier metadata; a job's remote state record is deleted
exactly when it was eligible, reported reclaimed and COMPLETED; the deleted
jobspecs are exactly the deleted state records (so a reclaimed PENDING job
has nothing deleted); and a job stays in the active set, unchanged, exactly
when it was not both eligible and reclaimed. -/
theorem claim_C5 (jobs : List (String × Job)) (reclaimed : String → Bool)
    (n : String) (j : Job) :
    (n ∈ (_gc_jobs jobs reclaimed).swept ↔
      ∃ j2, (n, j2) ∈ jobs ∧ gcEligible j2 = true) ∧
    (n ∈ (_gc_jobs jobs reclaimed).deletedStates ↔
      ∃ j2, (n, j2) ∈ jobs ∧ gcEligible j2 = true ∧ reclaimed n = true ∧
        j2.state.status = .COMPLETED) ∧
    ((_gc_jobs jobs reclaimed).deletedSpecs = (_gc_jobs jobs reclaimed).deletedStates) ∧
    ((n, j) ∈ (_gc_jobs jobs reclaimed).remaining ↔
      (n, j) ∈ jobs ∧ ¬(gcEligible j = true ∧ reclaimed n = true)) := by
  induction jobs with
  | nil => simp [_gc_jobs]
  | cons hd tl ih =>
    obtain ⟨m, k⟩ := hd
    obtain ⟨ih1, ih2, ih3, ih4⟩ := ih
    cases hst : k.state.status <;>
      by_cases hr : reclaimed m = true <;>
      by_cases he : gcEligible k = true <;>
      simp_all [_gc_jobs, List.mem_cons, Prod.mk.injEq] <;>
      aesop

/-- C6: on an unrecoverable exception the engine attempts to kill every
tracked job's processes; a job remains in the active set afterwards exactly
when it was tracked and killing it raised an error, and the error of every
such job is collected. -/
theorem claim_C6 (jobs : List (String × Job)) (killFails : String → Bool)
    (n : String) (j : Job) :
    (execute_exception_cleanup jobs killFails).attempted = jobs.map (fun p => p.1) ∧
    ((n, j) ∈ (execute_exception_cleanup jobs killFails).remaining ↔
      (n, j) ∈ jobs ∧ killFails n = true) ∧
    (n ∈ (execute_exception_cleanup jobs killFails).killErrors ↔
      ∃ j2, (n, j2) ∈ jobs ∧ killFails n = true) := by
  induction jobs with
  | nil => simp [execute_exception_cleanup]
  | cons hd tl ih =>
    obtain ⟨m, k⟩ := hd
    obtain ⟨ih1, ih2, ih3⟩ := ih
    by_cases hk : killFails m = true <;>
      simp_all [execute_exception_cleanup, List.mem_cons, Prod.mk.injEq] <;>
      aesop

/-- C7: the scheduler is invoked on exactly the active jobs whose status is
PENDING or ACTIVE; well-formed runtime options are passed through, and an
unknown or malformed runtime-options document (wrong value types, unknown
keys, a non-object scheduler section) never raises and yields dry_run =
false and verbosity = 0. -/
theorem claim_C7 :
    (∀ (jobs : List (String × Job)) (n : String) (j : Job),
        (n, j) ∈ schedulable_jobs jobs ↔
          (n, j) ∈ jobs ∧ (j.state.status = .PENDING ∨ j.state.status = .ACTIVE)) ∧
    (∀ (b : Bool) (v : Nat),
        _load_scheduler_options
          (.obj [("scheduler", .obj [("dry_run", .bool b), ("verbosity", .num v)])])
          = (b, v)) ∧
    _load_scheduler_options
        (.obj [("scheduler", .obj [("dry_run", .str "hello"), ("verbosity", .null)])])
      = (false, 0) ∧
    _load_scheduler_options (.obj [("scheduler", .obj [("verbosity", .null)])]) = (false, 0) ∧
    _load_scheduler_options (.obj [("scheduler", .obj [("unknown", .num 123)])]) = (false, 0) ∧
    _load_scheduler_options (.obj [("scheduler", .arr []), ("unknown", .num 123)])
      = (false, 0) ∧
    _load_scheduler_options (.obj [("unknown", .num 123)]) = (false, 0) := by
  refine ⟨?_, ?_, rfl, rfl, rfl, rfl, rfl⟩
  · intro jobs n j
    simp [schedulable_jobs, List.mem_filter]
  · intro b v
    rfl

end Bastion
